import Mathlib

/-!
Verification of the LogDevice ldshell `maintenance` command module
(`logdevice/ops/ldshell/autoload/commands/maintenance.py`): the shard
state-satisfaction predicate, the severity classifiers, the maintenance
filter pipeline, and the compact/expanded rendering engine, shallowly
embedded in Lean 4.

External text primitives (`termcolor.colored`, `tabulate`, `humanize.
naturaltime`, `safety.check_impact_string`, `textwrap.shorten`) are
collaborators the module only calls; they are modelled as an abstract
bundle of functions (`ExtLib`) passed to every rendering definition.
Timestamps are modelled as natural numbers.
-/

/-- Modelled from the spec: the thrift enum `ShardOperationalState`
(`logdevice.admin.nodes.types`) is not part of the sources; members are
those the spec and the module reference (UNKNOWN default, the target
states MAY_DISAPPEAR and DRAINED, PROVISIONING, MIGRATING_DATA) plus the
ordinary states of a shard the spec glossary describes. -/
inductive ShardOperationalState where
  | UNKNOWN
  | ENABLED
  | MAY_DISAPPEAR
  | DRAINED
  | MIGRATING_DATA
  | PROVISIONING
  | PASSIVE_DRAINING
  | INVALID
  deriving DecidableEq, Repr

/-- Python's `.name` attribute of the enum member. -/
def ShardOperationalState.name : ShardOperationalState → String
  | .UNKNOWN => "UNKNOWN"
  | .ENABLED => "ENABLED"
  | .MAY_DISAPPEAR => "MAY_DISAPPEAR"
  | .DRAINED => "DRAINED"
  | .MIGRATING_DATA => "MIGRATING_DATA"
  | .PROVISIONING => "PROVISIONING"
  | .PASSIVE_DRAINING => "PASSIVE_DRAINING"
  | .INVALID => "INVALID"

/-- Overall progress of one maintenance record
(`MaintenanceProgress`, members as listed in the spec data model). -/
inductive MaintenanceProgress where
  | UNKNOWN
  | IN_PROGRESS
  | BLOCKED_UNTIL_SAFE
  | COMPLETED
  deriving DecidableEq, Repr

def MaintenanceProgress.name : MaintenanceProgress → String
  | .UNKNOWN => "UNKNOWN"
  | .IN_PROGRESS => "IN_PROGRESS"
  | .BLOCKED_UNTIL_SAFE => "BLOCKED_UNTIL_SAFE"
  | .COMPLETED => "COMPLETED"

/-- Modelled from the spec: per-shard/per-sequencer workflow status
(`MaintenanceStatus`); the module names BLOCKED_UNTIL_SAFE,
REBUILDING_IS_BLOCKED and COMPLETED explicitly and treats every other
member uniformly, so extra members only exercise the default branch. -/
inductive MaintenanceStatus where
  | NOT_STARTED
  | STARTED
  | AWAITING_SAFETY_CHECK
  | AWAITING_DATA_REBUILDING
  | RETRY
  | BLOCKED_UNTIL_SAFE
  | COMPLETED
  | REBUILDING_IS_BLOCKED
  deriving DecidableEq, Repr

def MaintenanceStatus.name : MaintenanceStatus → String
  | .NOT_STARTED => "NOT_STARTED"
  | .STARTED => "STARTED"
  | .AWAITING_SAFETY_CHECK => "AWAITING_SAFETY_CHECK"
  | .AWAITING_DATA_REBUILDING => "AWAITING_DATA_REBUILDING"
  | .RETRY => "RETRY"
  | .BLOCKED_UNTIL_SAFE => "BLOCKED_UNTIL_SAFE"
  | .COMPLETED => "COMPLETED"
  | .REBUILDING_IS_BLOCKED => "REBUILDING_IS_BLOCKED"

/-- `MaintenancePriority`, members as listed in the spec data model. -/
inductive MaintenancePriority where
  | IMMINENT
  | HIGH
  | MEDIUM
  | LOW
  deriving DecidableEq, Repr

def MaintenancePriority.name : MaintenancePriority → String
  | .IMMINENT => "IMMINENT"
  | .HIGH => "HIGH"
  | .MEDIUM => "MEDIUM"
  | .LOW => "LOW"

/-- Modelled from the spec: sequencing state of a sequencer node; only
its `.name` is ever used by the module. -/
inductive SequencingState where
  | ENABLED
  | BOOSTED
  | DISABLED
  deriving DecidableEq, Repr

def SequencingState.name : SequencingState → String
  | .ENABLED => "ENABLED"
  | .BOOSTED => "BOOSTED"
  | .DISABLED => "DISABLED"

/-- `_satisfy_shard_op_state(cur, tgt)` from the source: whether a
shard's current operational state satisfies the maintenance target. -/
def satisfy_shard_op_state
    (cur tgt : ShardOperationalState) : Bool :=
  if tgt = ShardOperationalState.MAY_DISAPPEAR then
    if cur = ShardOperationalState.MAY_DISAPPEAR
        ∨ cur = ShardOperationalState.DRAINED
        ∨ cur = ShardOperationalState.PROVISIONING
        ∨ cur = ShardOperationalState.MIGRATING_DATA then
      true
    else
      false
  else if tgt = ShardOperationalState.DRAINED then
    if cur = ShardOperationalState.DRAINED then true else false
  else
    false

/-- `_color_shard_op_state(cur, tgt)` from the source. -/
def color_shard_op_state
    (cur tgt : ShardOperationalState) : String :=
  if satisfy_shard_op_state cur tgt then "green" else "yellow"

/-- The rendering sites pass the optional `mv.shard_target_state`
straight into `_color_shard_op_state`; in Python a `None` target compares
unequal to every enum member, so the predicate returns `False` and the
color is yellow. -/
def color_shard_op_state_opt
    (cur : ShardOperationalState)
    (tgt : Option ShardOperationalState) : String :=
  match tgt with
  | some t => color_shard_op_state cur t
  | none => "yellow"

/-- `_color_maintenance_status` from the source. -/
def color_maintenance_status (arg : MaintenanceStatus) : String :=
  if arg = MaintenanceStatus.BLOCKED_UNTIL_SAFE
      ∨ arg = MaintenanceStatus.REBUILDING_IS_BLOCKED then
    "red"
  else if arg = MaintenanceStatus.COMPLETED then
    "green"
  else
    "yellow"

/-- `_color_maintenance_overall_status` from the source. -/
def color_maintenance_overall_status (arg : MaintenanceProgress) : String :=
  if arg = MaintenanceProgress.COMPLETED then "green"
  else if arg = MaintenanceProgress.BLOCKED_UNTIL_SAFE then "red"
  else if arg = MaintenanceProgress.UNKNOWN then "red"
  else if arg = MaintenanceProgress.IN_PROGRESS then "yellow"
  else "white"

/-- `_color_priority` from the source. -/
def color_priority (arg : MaintenancePriority) : String :=
  if arg = MaintenancePriority.IMMINENT then "magenta"
  else if arg = MaintenancePriority.HIGH then "red"
  else if arg = MaintenancePriority.LOW then "blue"
  else "white"

/-- Argument type of the dict-dispatched `_color`: a value of type
`MaintenanceProgress` or `MaintenanceStatus` (the only keys of the
dispatch dict). -/
inductive ColorArg where
  | progress (p : MaintenanceProgress)
  | status (s : MaintenanceStatus)
  deriving DecidableEq, Repr

/-- `_color` from the source: dispatch on the runtime type of the
argument to the matching classifier. -/
def color : ColorArg → String
  | .progress p => color_maintenance_overall_status p
  | .status s => color_maintenance_status s

/-- `ShardID` (node id plus shard index; index -1 means all shards). -/
structure ShardID where
  node : Nat
  shard_index : Int
  deriving DecidableEq, Repr

/-- A sequencer node reference (`n.node_index` is all the module uses). -/
structure NodeID where
  node_index : Nat
  deriving DecidableEq, Repr

/-- The per-shard state record returned by `mv.get_shard_state`: only
`current_operational_state` is read by the module. -/
structure MvShardState where
  current_operational_state : ShardOperationalState
  deriving DecidableEq, Repr

/-- `ShardMaintenanceProgress.from_thrift(ss.maintenance)`: the module
reads only `last_updated_at`, modelled as a natural-number timestamp. -/
structure ShardMaintenanceProgressT where
  last_updated_at : Nat
  deriving DecidableEq, Repr

/-- One element of `nv.shard_states`: `maintenance` is optional. -/
structure NodeShardState where
  maintenance : Option ShardMaintenanceProgressT
  deriving DecidableEq, Repr

/-- The impact result attached to a blocked maintenance
(`mv.last_check_impact_result`); `impact` is the list the overview block
formats via `safety.impacts_to_string`. -/
structure ImpactResult where
  impact : List String
  deriving DecidableEq, Repr

/-- `MaintenanceView`: read-only snapshot of one maintenance record,
with the fields and accessors the module reads. Accessors are modelled
as function-valued fields. -/
structure MaintenanceView where
  group_id : String
  affected_node_indexes : List Nat
  affected_storage_node_indexes : List Nat
  affected_storage_node_ids : List Nat
  overall_status : MaintenanceProgress
  affects_shards : Bool
  affects_sequencers : Bool
  is_blocked : Bool
  are_all_shards_done : Bool
  are_all_sequencers_done : Bool
  is_internal : Bool
  is_completed : Bool
  is_in_progress : Bool
  skip_safety_checks : Bool
  skip_capacity_checks : Bool
  allow_passive_drains : Bool
  force_restore_rebuilding : Bool
  shard_target_state : Option ShardOperationalState
  sequencer_target_state : Option SequencingState
  num_shards_done : Nat
  num_shards_total : Nat
  num_sequencers_done : Nat
  num_sequencers_total : Nat
  priority : Option MaintenancePriority
  user : String
  reason : Option String
  extras : List (String × String)
  created_on : Option Nat
  expires_on : Option Nat
  last_check_impact_result : Option ImpactResult
  get_shard_state : ShardID → Option MvShardState
  get_shard_maintenance_status : ShardID → MaintenanceStatus
  get_shard_last_updated_at : ShardID → Option Nat
  get_shards_by_node_index : Nat → List ShardID
  sequencer_nodes : List NodeID
  get_sequencer_maintenance_status : NodeID → MaintenanceStatus
  get_sequencer_last_updated_at : NodeID → Option Nat

/-- A node view from the cluster topology, with the fields the module
reads. -/
structure NodeView where
  node_index : Nat
  node_name : String
  location : String
  shard_states : List NodeShardState
  sequencer_state : SequencingState

/-- `ClusterView`: topology joined with all maintenance records.
`get_node_index` models the name lookup; an unresolved name is `none`
(the Python lookup raises `NodeNotFoundError`, wrapped at call sites). -/
structure ClusterView where
  get_node_view : Nat → NodeView
  get_node_index : String → Option Nat
  get_all_maintenance_views : List MaintenanceView

/-- Errors the embedded pipeline can surface: node-name resolution
failure (`NodeNotFoundError`) and `ValueError` (Python `min()` over an
empty sequence). -/
inductive PyErr where
  | nodeNotFound (name : String)
  | valueError (msg : String)
  deriving DecidableEq, Repr

/-- `_get_shard_operational_state(mv, shard)` from the source. -/
def get_shard_operational_state
    (mv : MaintenanceView) (shard : ShardID) : ShardOperationalState :=
  match mv.get_shard_state shard with
  | some shard_state => shard_state.current_operational_state
  | none => ShardOperationalState.UNKNOWN

/-- One stage of `_filter_maintenance_views`: the Python pattern
`if crit is not None: mvs = (mv for mv in mvs if p(crit, mv))`; an
absent criterion leaves the stream unchanged. -/
def optFilter {β : Type}
    (crit : Option β) (p : β → MaintenanceView → Bool)
    (l : List MaintenanceView) : List MaintenanceView :=
  match crit with
  | some b => l.filter (p b)
  | none => l

/-- The stage chain of `_filter_maintenance_views`, applied after node
names have been resolved (`resolved_name_indexes` is the resolved
`node_indexes_set` when `node_names` was given). Stages appear in source
order. -/
def filterStages
    (maintenance_views : List MaintenanceView)
    (ids : Option (List String))
    (users : Option (List String))
    (node_indexes : Option (List Nat))
    (resolved_name_indexes : Option (List Nat))
    (blocked : Option Bool)
    (completed : Option Bool)
    (in_progress : Option Bool)
    (priority : Option MaintenancePriority)
    (include_internal_maintenances : Option Bool) :
    List MaintenanceView :=
  -- include_internal_maintenances is not None and is False
  let s0 := if include_internal_maintenances = some false then
      maintenance_views.filter (fun mv => !mv.is_internal)
    else maintenance_views
  let s1 := optFilter ids
    (fun ids_set mv => decide (mv.group_id ∈ ids_set)) s0
  let s2 := optFilter users
    (fun users_set mv => decide (mv.user ∈ users_set)) s1
  let s3 := optFilter node_indexes
    (fun node_indexes_set mv =>
      mv.affected_node_indexes.any (fun ni => decide (ni ∈ node_indexes_set)))
    s2
  let s4 := optFilter resolved_name_indexes
    (fun node_indexes_set mv =>
      mv.affected_node_indexes.any (fun ni => decide (ni ∈ node_indexes_set)))
    s3
  let s5 := optFilter priority
    (fun p mv => decide (mv.priority = some p)) s4
  let s6 := optFilter blocked
    (fun b mv => decide (mv.is_blocked = b)) s5
  let s7 := optFilter completed
    (fun c mv => decide (mv.is_completed = c)) s6
  let s8 := optFilter in_progress
    (fun ip mv => decide (mv.is_in_progress = ip)) s7
  s8

/-- Resolution of `node_names` to a set of node indexes via the cluster
view; the first unresolvable name raises `NodeNotFoundError`. -/
def resolveNodeNames (cv : ClusterView) :
    List String → Except PyErr (List Nat)
  | [] => Except.ok []
  | name :: rest =>
    match cv.get_node_index name with
    | some ni =>
      match resolveNodeNames cv rest with
      | Except.ok nis => Except.ok (ni :: nis)
      | Except.error e => Except.error e
    | none => Except.error (PyErr.nodeNotFound name)

/-- `_filter_maintenance_views` from the source. The Python function
chains lazy generators, but the `node_names` resolution set comprehension
is evaluated eagerly during the call, so an unresolvable name raises
before any record is produced; callers consume the whole generator, so
the observable behaviour is this `Except` of the fully filtered list. -/
def filter_maintenance_views
    (maintenance_views : List MaintenanceView)
    (cluster_view : ClusterView)
    (ids : Option (List String))
    (users : Option (List String))
    (node_indexes : Option (List Nat))
    (node_names : Option (List String))
    (blocked : Option Bool)
    (completed : Option Bool)
    (in_progress : Option Bool)
    (priority : Option MaintenancePriority)
    (include_internal_maintenances : Option Bool) :
    Except PyErr (List MaintenanceView) :=
  match node_names with
  | some names =>
    match resolveNodeNames cluster_view names with
    | Except.ok nis =>
      Except.ok (filterStages maintenance_views ids users node_indexes
        (some nis) blocked completed in_progress priority
        include_internal_maintenances)
    | Except.error e => Except.error e
  | none =>
    Except.ok (filterStages maintenance_views ids users node_indexes
      none blocked completed in_progress priority
      include_internal_maintenances)

/-- `RenderingMode` from the source. -/
inductive RenderingMode where
  | COMPACT
  | EXPANDED
  | EXPANDED_WITH_SHARDS
  | EXPANDED_WITH_SAFETY_CHECKS
  deriving DecidableEq, Repr

/-- The external text collaborators the module calls but does not
define: `termcolor.colored(text, color)`, `humanize.naturaltime`,
`tabulate(headers, rows)` (headers `[]` for the header-less "plain"
key/value tables), `textwrap.indent(prefix, text)`,
`textwrap.shorten(text, width)` with the fixed "..." placeholder,
`safety.check_impact_string(response, shards, target_state)` and
`safety.impacts_to_string(impacts)`. -/
structure ExtLib where
  colored : String → String → String
  naturaltime : Nat → String
  tabulate : List String → List (List String) → String
  indent : String → String → String
  shorten : String → Nat → String
  check_impact_string :
    Option ImpactResult → List ShardID → Option ShardOperationalState → String
  impacts_to_string : List String → String

/-- Python `str` of a bool. -/
def pyBool (b : Bool) : String := if b then "True" else "False"

/-- Python truthiness of an optional string (`None` and `""` are falsy). -/
def pyTruthyStr : Option String → Bool
  | some s => s ≠ ""
  | none => false

/-- `.name` of the optional `mv.shard_target_state`. The module accesses
it under a pyre-ignore, relying on the data-model invariant that the
target is present whenever `affects_shards` holds; the `none` branch
models the unreachable case. -/
def targetName : Option ShardOperationalState → String
  | some t => t.name
  | none => "None"

/-- `.name` of the optional `mv.sequencer_target_state` (same
pyre-ignored access pattern). -/
def seqTargetName : Option SequencingState → String
  | some t => t.name
  | none => "None"

/-- The row tuple built by `mv_to_row` inside `_render_compact`, one
field per tuple component. -/
structure CompactRow where
  id : String
  affected : String
  status : String
  shard_progress : String
  sequencer_progress : String
  priority_str : String
  created_by : String
  created_reason : String
  created_on : String
  expires_on : String

/-- `mv_to_row(mv, cv)` from `_render_compact`. -/
def mv_to_row (ext : ExtLib) (mv : MaintenanceView) (_cv : ClusterView) :
    CompactRow :=
  let id := mv.group_id
  let affected := ext.shorten
    (String.intercalate ","
      (mv.affected_node_indexes.map (fun ni => "N" ++ toString ni)))
    30
  let status := ext.colored mv.overall_status.name
    (color (ColorArg.progress mv.overall_status))
  let shard_progress := if mv.affects_shards then
      let c := if mv.is_blocked then "red"
        else if !mv.are_all_shards_done then "yellow"
        else "green"
      ext.colored
        (targetName mv.shard_target_state
          ++ "(" ++ toString mv.num_shards_done
          ++ "/" ++ toString mv.num_shards_total ++ ")")
        c
    else "-"
  let sequencer_progress := if mv.affects_sequencers then
      let c := if mv.are_all_sequencers_done then "green" else "yellow"
      ext.colored
        (seqTargetName mv.sequencer_target_state
          ++ "(" ++ toString mv.num_sequencers_done
          ++ "/" ++ toString mv.num_sequencers_total ++ ")")
        c
    else "-"
  let priority := mv.priority.getD MaintenancePriority.MEDIUM
  let priority_str := ext.colored priority.name (color_priority priority)
  let created_by := mv.user
  let created_reason := if pyTruthyStr mv.reason then
      ext.shorten (mv.reason.getD "") 40
    else "-"
  let created_on := match mv.created_on with
    | some t => toString t
    | none => "-"
  let expires_on := match mv.expires_on with
    | some t => ext.naturaltime t
    | none => "-"
  ⟨id, affected, status, shard_progress, sequencer_progress,
    priority_str, created_by, created_reason, created_on, expires_on⟩

/-- The compact row as the list of its components, in tuple order. -/
def rowToList (r : CompactRow) : List String :=
  [r.id, r.affected, r.status, r.shard_progress, r.sequencer_progress,
    r.priority_str, r.created_by, r.created_reason, r.created_on,
    r.expires_on]

/-- `_render_compact` from the source. -/
def render_compact (ext : ExtLib) (maintenance_views : List MaintenanceView)
    (cluster_view : ClusterView) : String :=
  ext.tabulate
    ["MNT. ID", "AFFECTED", "STATUS", "SHARDS", "SEQUENCERS", "PRIORITY",
      "CREATED BY", "REASON", "CREATED AT", "EXPIRES IN"]
    (maintenance_views.map (fun mv => rowToList (mv_to_row ext mv cluster_view)))

/-- The `overview` block of `_render_expanded.one`. -/
def overview (ext : ExtLib) (mv : MaintenanceView) (_cv : ClusterView) : String :=
  let priority := mv.priority.getD MaintenancePriority.MEDIUM
  let impactRows : List (String × String) :=
    match mv.last_check_impact_result with
    | some r =>
      if mv.overall_status = MaintenanceProgress.BLOCKED_UNTIL_SAFE
          ∨ mv.overall_status = MaintenanceProgress.UNKNOWN then
        [("Impact Result", ext.colored (ext.impacts_to_string r.impact) "red")]
      else []
    | none => []
  let reasonStr := if pyTruthyStr mv.reason then mv.reason.getD "" else "-"
  let extrasStr := if mv.extras ≠ [] then
      String.intercalate "\n" (mv.extras.map (fun kv => kv.1 ++ "=" ++ kv.2))
    else "-"
  let createdOn := match mv.created_on with
    | some t => toString t ++ " (" ++ ext.naturaltime t ++ ")"
    | none => "-"
  let expiresOn := match mv.expires_on with
    | some t => toString t ++ " (" ++ ext.naturaltime t ++ ")"
    | none => "-"
  let skipSafety := if mv.skip_safety_checks then
      ext.colored (pyBool mv.skip_safety_checks) "red"
    else pyBool mv.skip_safety_checks
  let skipCapacity := if mv.skip_capacity_checks then
      ext.colored (pyBool mv.skip_capacity_checks) "red"
    else pyBool mv.skip_capacity_checks
  let tbl : List (String × String) :=
    [("Maintenance ID", mv.group_id),
      ("Priority", ext.colored priority.name (color_priority priority)),
      ("Affected ",
        toString mv.num_shards_total ++ " shards on "
          ++ toString mv.affected_storage_node_ids.length ++ " nodes, "
          ++ toString mv.num_sequencers_total ++ " sequencers"),
      ("Status", ext.colored mv.overall_status.name
        (color (ColorArg.progress mv.overall_status)))]
    ++ impactRows
    ++ [("Created By", mv.user),
      ("Reason", reasonStr),
      ("Extras", extrasStr),
      ("Created On", createdOn),
      ("Expires On", expiresOn),
      ("Skip Safety Checks", skipSafety),
      ("Skip Capacity Checks", skipCapacity),
      ("Allow Passive Drains", pyBool mv.allow_passive_drains),
      ("RESTORE rebuilding enforced", pyBool mv.force_restore_rebuilding)]
  ext.tabulate [] (tbl.map (fun r => [r.1 ++ ":", r.2]))

/-- `Counter(l).items()`: each distinct element with its multiplicity. -/
def counterItems {α : Type} [DecidableEq α] (l : List α) : List (α × Nat) :=
  l.dedup.map (fun a => (a, l.count a))

def insertSortedBy {α : Type} (le : α → α → Bool) (a : α) :
    List α → List α
  | [] => [a]
  | b :: l => if le a b then a :: b :: l else b :: insertSortedBy le a l

/-- Insertion sort by a boolean "less or equal" test; models Python's
stable `sorted`. -/
def insertionSortBy {α : Type} (le : α → α → Bool) : List α → List α
  | [] => []
  | a :: l => insertSortedBy le a (insertionSortBy le l)

/-- `sorted(Counter(l).items(), key=lambda x: x[0].name)`: multiplicity
groups ordered by the name of the carried enum value. -/
def sortedCountsByName {α : Type} [DecidableEq α] (name : α → String)
    (l : List α) : List (α × Nat) :=
  insertionSortBy (fun p q => decide (name p.1 ≤ name q.1)) (counterItems l)

/-- The CURRENT STATE chips of one node's row in the `aggregated` shard
table: each distinct current operational state with its shard count,
colored through `_color_shard_op_state` against the maintenance's
target. -/
def aggregatedCurrentStateChunks (ext : ExtLib) (mv : MaintenanceView)
    (ni : Nat) : List String :=
  (sortedCountsByName ShardOperationalState.name
    ((mv.get_shards_by_node_index ni).map
      (fun shard => get_shard_operational_state mv shard))).map
    (fun p => ext.colored (p.1.name ++ "(" ++ toString p.2 ++ ")")
      (color_shard_op_state_opt p.1 mv.shard_target_state))

/-- The MAINTENANCE STATUS chips of one node's row in the `aggregated`
shard table. -/
def aggregatedMntStatusChunks (ext : ExtLib) (mv : MaintenanceView)
    (ni : Nat) : List String :=
  (sortedCountsByName MaintenanceStatus.name
    ((mv.get_shards_by_node_index ni).map
      (fun shard => mv.get_shard_maintenance_status shard))).map
    (fun p => ext.colored (p.1.name ++ "(" ++ toString p.2 ++ ")")
      (color (ColorArg.status p.1)))

/-- The LAST UPDATED cell of one node's row in the `aggregated` shard
table: "NEVER" when the node view has no shard states; otherwise Python
takes `min()` over the `last_updated_at` of the shard states that carry a
maintenance record, which raises `ValueError` when none does. -/
def aggregatedLastUpdatedCell (ext : ExtLib) (nv : NodeView) :
    Except PyErr String :=
  if nv.shard_states ≠ [] then
    match ((nv.shard_states.filterMap NodeShardState.maintenance).map
        ShardMaintenanceProgressT.last_updated_at).min? with
    | some t => Except.ok (toString t ++ " (" ++ ext.naturaltime t ++ ")")
    | none => Except.error (PyErr.valueError "min() arg is an empty sequence")
  else
    Except.ok "NEVER"

/-- One row of the `aggregated` shard table (one affected storage
node). -/
def aggregatedRow (ext : ExtLib) (mv : MaintenanceView) (cv : ClusterView)
    (ni : Nat) : Except PyErr (List String) :=
  let nv := cv.get_node_view ni
  let target_state := targetName mv.shard_target_state
    ++ "(" ++ toString (mv.get_shards_by_node_index ni).length ++ ")"
  let current_state := String.intercalate ","
    (aggregatedCurrentStateChunks ext mv ni)
  let maintenance_status := String.intercalate ","
    (aggregatedMntStatusChunks ext mv ni)
  match aggregatedLastUpdatedCell ext nv with
  | Except.ok last_updated_at =>
    Except.ok [toString ni, nv.node_name, nv.location, target_state,
      current_state, maintenance_status, last_updated_at]
  | Except.error e => Except.error e

/-- `aggregated(mv, cv)` from `_render_expanded.one.shards`. -/
def aggregated (ext : ExtLib) (mv : MaintenanceView) (cv : ClusterView) :
    Except PyErr String :=
  match mv.affected_storage_node_indexes.mapM
      (fun ni => aggregatedRow ext mv cv ni) with
  | Except.ok tbl =>
    Except.ok (ext.tabulate
      ["NODE INDEX", "NODE NAME", "LOCATION", "TARGET STATE",
        "CURRENT STATE", "MAINTENANCE STATUS", "LAST UPDATED"]
      tbl)
  | Except.error e => Except.error e

/-- One row of the per-shard `shards_table` in the expanded view. -/
def shardsTableRow (ext : ExtLib) (mv : MaintenanceView) (shard : ShardID) :
    List String :=
  let cur_op_state := get_shard_operational_state mv shard
  let current_state := ext.colored cur_op_state.name
    (color_shard_op_state_opt cur_op_state mv.shard_target_state)
  let mnt_status := mv.get_shard_maintenance_status shard
  let maintenance_status := ext.colored mnt_status.name
    (color (ColorArg.status mnt_status))
  let last_updated := match mv.get_shard_last_updated_at shard with
    | some t => toString t ++ " (" ++ ext.naturaltime t ++ ")"
    | none => "-"
  [toString shard.shard_index, current_state,
    targetName mv.shard_target_state, maintenance_status, last_updated]

/-- `shards_table(mv, cv, ni)` from `_render_expanded.one.shards.expanded`. -/
def shards_table (ext : ExtLib) (mv : MaintenanceView) (_cv : ClusterView)
    (ni : Nat) : String :=
  ext.tabulate
    ["SHARD INDEX", "CURRENT STATE", "TARGET STATE",
      "MAINTENANCE STATUS", "LAST UPDATED"]
    ((mv.get_shards_by_node_index ni).map (shardsTableRow ext mv))

/-- `one_node(mv, cv, ni)`: the per-shard table of one node, prefixed
with the node identity and indented. -/
def one_node (ext : ExtLib) (mv : MaintenanceView) (cv : ClusterView)
    (ni : Nat) : String :=
  let nv := cv.get_node_view ni
  "N" ++ toString nv.node_index ++ " (" ++ nv.node_name ++ "):\n"
    ++ ext.indent "  " (shards_table ext mv cv ni)

/-- `expanded(mv, cv)`: one per-shard table per affected node. -/
def expandedShards (ext : ExtLib) (mv : MaintenanceView) (cv : ClusterView) :
    String :=
  String.intercalate "\n\n"
    (mv.affected_node_indexes.map (one_node ext mv cv))

/-- The shard block of `_render_expanded.one`: absent when the record
does not affect shards, otherwise the aggregated or the per-shard
rendering depending on `expand_shards`. -/
def shardsSection (ext : ExtLib) (mv : MaintenanceView) (cv : ClusterView)
    (expand_shards : Bool) : Except PyErr (Option String) :=
  if !mv.affects_shards then
    Except.ok none
  else if expand_shards then
    Except.ok (some ("Shard Maintenances:\n"
      ++ ext.indent "  " (expandedShards ext mv cv)))
  else
    match aggregated ext mv cv with
    | Except.ok s =>
      Except.ok (some ("Shard Maintenances:\n" ++ ext.indent "  " s))
    | Except.error e => Except.error e

/-- One row of the sequencer table. -/
def sequencerRow (ext : ExtLib) (mv : MaintenanceView) (cv : ClusterView)
    (n : NodeID) : List String :=
  let nv := cv.get_node_view n.node_index
  let mnt_status := mv.get_sequencer_maintenance_status n
  let current_state := ext.colored nv.sequencer_state.name
    (color (ColorArg.status mnt_status))
  let maintenance_status := ext.colored mnt_status.name
    (color (ColorArg.status mnt_status))
  let last_updated := match mv.get_sequencer_last_updated_at n with
    | some t => toString t ++ " (" ++ ext.naturaltime t ++ ")"
    | none => "-"
  [toString nv.node_index, nv.node_name, nv.location,
    seqTargetName mv.sequencer_target_state, current_state,
    maintenance_status, last_updated]

/-- The sequencer block of `_render_expanded.one`: absent when the
record does not affect sequencers. -/
def sequencersSection (ext : ExtLib) (mv : MaintenanceView)
    (cv : ClusterView) : Option String :=
  if !mv.affects_sequencers then
    none
  else
    some ("Sequencer Maintenances:\n"
      ++ ext.indent "  " (ext.tabulate
        ["NODE INDEX", "NODE NAME", "LOCATION", "TARGET STATE",
          "CURRENT STATE", "MAINTENANCE STATUS", "LAST UPDATED"]
        (mv.sequencer_nodes.map (sequencerRow ext mv cv))))

/-- The flattened shard list `impact` builds for
`safety.check_impact_string`. -/
def flattenedShards (mv : MaintenanceView) : List ShardID :=
  (mv.affected_node_indexes.map mv.get_shards_by_node_index).flatten

/-- `impact(mv, show_safety_check_results)` from `_render_expanded.one`:
the safety-impact block, or the empty string (which the section join
drops). -/
def impactSection (ext : ExtLib) (mv : MaintenanceView)
    (show_safety_check_results : Bool) : String :=
  if mv.overall_status = MaintenanceProgress.BLOCKED_UNTIL_SAFE
      ∧ show_safety_check_results = true then
    "Safety Check Impact:\n\n"
      ++ ext.check_impact_string mv.last_check_impact_result
        (flattenedShards mv) mv.shard_target_state
  else
    ""

/-- The four section values `one` assembles, before Python's
`filter(None, ...)`; the optional ones are `None` when their block is
absent. -/
def oneRawSections (ext : ExtLib) (mv : MaintenanceView) (cv : ClusterView)
    (expand_shards show_safety_check_results : Bool) :
    Except PyErr (List (Option String)) :=
  match shardsSection ext mv cv expand_shards with
  | Except.ok sh =>
    Except.ok [some (overview ext mv cv), sh,
      sequencersSection ext mv cv,
      some (impactSection ext mv show_safety_check_results)]
  | Except.error e => Except.error e

/-- Python's `filter(None, sections)`: drop `None` and falsy (empty)
strings. -/
def keptSections (l : List (Option String)) : List String :=
  (l.filterMap id).filter (fun s => s ≠ "")

/-- `one(mv, cv, expand_shards)` from `_render_expanded`: the kept
sections joined by blank lines. -/
def oneMaintenance (ext : ExtLib) (mv : MaintenanceView) (cv : ClusterView)
    (expand_shards show_safety_check_results : Bool) :
    Except PyErr String :=
  match oneRawSections ext mv cv expand_shards show_safety_check_results with
  | Except.ok l => Except.ok (String.intercalate "\n\n" (keptSections l))
  | Except.error e => Except.error e

/-- `_render_expanded` from the source. -/
def render_expanded (ext : ExtLib) (maintenance_views : List MaintenanceView)
    (cluster_view : ClusterView)
    (expand_shards show_safety_check_results : Bool) :
    Except PyErr String :=
  match maintenance_views.mapM (fun mv =>
      oneMaintenance ext mv cluster_view expand_shards
        show_safety_check_results) with
  | Except.ok parts => Except.ok (String.intercalate "\n\n---\n" parts)
  | Except.error e => Except.error e

/-- `_render_expanded_with_shards` from the source. -/
def render_expanded_with_shards (ext : ExtLib)
    (maintenance_views : List MaintenanceView)
    (cluster_view : ClusterView) : Except PyErr String :=
  render_expanded ext maintenance_views cluster_view true false

/-- `_render_expanded_with_safety_checks` from the source. -/
def render_expanded_with_safety_checks (ext : ExtLib)
    (maintenance_views : List MaintenanceView)
    (cluster_view : ClusterView) : Except PyErr String :=
  render_expanded ext maintenance_views cluster_view false true

/-- `_render` from the source: dispatch on the rendering mode. -/
def render (ext : ExtLib) (maintenance_views : List MaintenanceView)
    (cluster_view : ClusterView) (mode : RenderingMode) :
    Except PyErr String :=
  match mode with
  | RenderingMode.COMPACT =>
    Except.ok (render_compact ext maintenance_views cluster_view)
  | RenderingMode.EXPANDED =>
    render_expanded ext maintenance_views cluster_view false false
  | RenderingMode.EXPANDED_WITH_SHARDS =>
    render_expanded_with_shards ext maintenance_views cluster_view
  | RenderingMode.EXPANDED_WITH_SAFETY_CHECKS =>
    render_expanded_with_safety_checks ext maintenance_views cluster_view

/-- `MaintenanceCommand._select_and_render` (its pure part, after the
cluster view has been fetched): filter with
`include_internal_maintenances=None`, then either the red
"no maintenances" message or the rendered table. -/
def select_and_render (ext : ExtLib) (cv : ClusterView)
    (ids : Option (List String)) (users : Option (List String))
    (node_indexes : Option (List Nat)) (node_names : Option (List String))
    (blocked completed in_progress : Option Bool)
    (priority : Option MaintenancePriority)
    (rendering_mode : RenderingMode) : Except PyErr String :=
  match filter_maintenance_views cv.get_all_maintenance_views cv ids users
      node_indexes node_names blocked completed in_progress priority
      none with
  | Except.ok mvs =>
    if mvs.length = 0 then
      Except.ok (ext.colored "No maintenances matching given criteria" "red")
    else
      render ext mvs cv rendering_mode
  | Except.error e => Except.error e

/-- `Except.ok` payload, or a default: used to state concrete facts
about successfully rendered values. -/
def okOr {ε α : Type} (e : Except ε α) (d : α) : α :=
  match e with
  | Except.ok a => a
  | Except.error _ => d

/-- Whether a pipeline result is a propagated `NodeNotFoundError`. -/
def isNodeNotFound {α : Type} : Except PyErr α → Bool
  | Except.error (PyErr.nodeNotFound _) => true
  | _ => false

/-- Concrete instantiation of the external text collaborators, used to
evaluate the embedding on concrete inputs. -/
def extSample : ExtLib where
  colored := fun text c => "<" ++ c ++ ">" ++ text ++ "</" ++ c ++ ">"
  naturaltime := fun t => toString t ++ " seconds ago"
  tabulate := fun headers rows =>
    String.intercalate "\n"
      ((if headers = [] then [] else [String.intercalate " | " headers])
        ++ rows.map (String.intercalate " | "))
  indent := fun pre s => pre ++ s
  shorten := fun s _ => s
  check_impact_string := fun _ _ _ => "IMPACT-DETAILS"
  impacts_to_string := fun l => String.intercalate ", " l

/-- A concrete user maintenance: blocked, one shard on node 1 still
migrating towards DRAINED, one sequencer being disabled, with a recorded
impact result. -/
def mvBlockedSample : MaintenanceView where
  group_id := "mnt-1"
  affected_node_indexes := [1]
  affected_storage_node_indexes := [1]
  affected_storage_node_ids := [1]
  overall_status := MaintenanceProgress.BLOCKED_UNTIL_SAFE
  affects_shards := true
  affects_sequencers := true
  is_blocked := true
  are_all_shards_done := false
  are_all_sequencers_done := false
  is_internal := false
  is_completed := false
  is_in_progress := true
  skip_safety_checks := false
  skip_capacity_checks := false
  allow_passive_drains := false
  force_restore_rebuilding := false
  shard_target_state := some ShardOperationalState.DRAINED
  sequencer_target_state := some SequencingState.DISABLED
  num_shards_done := 0
  num_shards_total := 1
  num_sequencers_done := 0
  num_sequencers_total := 1
  priority := some MaintenancePriority.HIGH
  user := "alice"
  reason := some "rack swap"
  extras := []
  created_on := some 100
  expires_on := none
  last_check_impact_result := some ⟨["REBUILDING_STALL"]⟩
  get_shard_state := fun _ => some ⟨ShardOperationalState.MIGRATING_DATA⟩
  get_shard_maintenance_status := fun _ => MaintenanceStatus.BLOCKED_UNTIL_SAFE
  get_shard_last_updated_at := fun _ => some 7
  get_shards_by_node_index := fun ni => if ni = 1 then [⟨1, 0⟩] else []
  sequencer_nodes := [⟨1⟩]
  get_sequencer_maintenance_status := fun _ => MaintenanceStatus.STARTED
  get_sequencer_last_updated_at := fun _ => none

/-- A system-generated (internal) variant of the sample maintenance. -/
def mvInternalSample : MaintenanceView :=
  { mvBlockedSample with group_id := "mnt-2", is_internal := true }

/-- A sample maintenance affecting neither shards nor sequencers. -/
def mvPlainSample : MaintenanceView :=
  { mvBlockedSample with
      group_id := "mnt-3"
      affects_shards := false
      affects_sequencers := false
      shard_target_state := none
      sequencer_target_state := none }

/-- A node view whose single shard state carries a maintenance record
last updated at time 7. -/
def nvSample : NodeView where
  node_index := 1
  node_name := "server1"
  location := "rack1"
  shard_states := [⟨some ⟨7⟩⟩]
  sequencer_state := SequencingState.ENABLED

/-- The same node with an empty shard-state list. -/
def nvEmptySample : NodeView :=
  { nvSample with shard_states := [] }

/-- The same node with one shard state that has no maintenance record. -/
def nvNoMaintenanceSample : NodeView :=
  { nvSample with shard_states := [⟨none⟩] }

/-- A concrete cluster view joining the sample node and maintenance. -/
def cvSample : ClusterView where
  get_node_view := fun _ => nvSample
  get_node_index := fun name => if name = "server1" then some 1 else none
  get_all_maintenance_views := [mvBlockedSample]

/-! Helper lemmas. -/

theorem mem_optFilter {β : Type} {crit : Option β}
    {p : β → MaintenanceView → Bool} {l : List MaintenanceView}
    {x : MaintenanceView} (h : x ∈ optFilter crit p l) : x ∈ l := by
  cases crit with
  | none => exact h
  | some b => exact List.mem_of_mem_filter h

theorem mem_filterStages_first
    {maintenance_views : List MaintenanceView}
    {ids : Option (List String)} {users : Option (List String)}
    {node_indexes resolved_name_indexes : Option (List Nat)}
    {blocked completed in_progress : Option Bool}
    {priority : Option MaintenancePriority}
    {include_internal_maintenances : Option Bool} {x : MaintenanceView}
    (h : x ∈ filterStages maintenance_views ids users node_indexes
      resolved_name_indexes blocked completed in_progress priority
      include_internal_maintenances) :
    x ∈ (if include_internal_maintenances = some false then
        maintenance_views.filter (fun mv => !mv.is_internal)
      else maintenance_views) := by
  simp only [filterStages] at h
  exact mem_optFilter (mem_optFilter (mem_optFilter (mem_optFilter
    (mem_optFilter (mem_optFilter (mem_optFilter (mem_optFilter h)))))))

theorem filterStages_incl_true
    (maintenance_views : List MaintenanceView)
    (ids : Option (List String)) (users : Option (List String))
    (node_indexes resolved_name_indexes : Option (List Nat))
    (blocked completed in_progress : Option Bool)
    (priority : Option MaintenancePriority) :
    filterStages maintenance_views ids users node_indexes
        resolved_name_indexes blocked completed in_progress priority
        (some true)
      = filterStages maintenance_views ids users node_indexes
        resolved_name_indexes blocked completed in_progress priority
        none := by
  simp [filterStages]

theorem resolveNodeNames_err {cv : ClusterView} {names : List String}
    {nm : String} (hmem : nm ∈ names)
    (hfail : cv.get_node_index nm = none) :
    ∃ m, resolveNodeNames cv names = Except.error (PyErr.nodeNotFound m) := by
  induction names with
  | nil => cases hmem
  | cons a l ih =>
    rcases List.mem_cons.mp hmem with h | h
    · subst h
      exact ⟨nm, by simp [resolveNodeNames, hfail]⟩
    · cases hga : cv.get_node_index a with
      | none => exact ⟨a, by simp [resolveNodeNames, hga]⟩
      | some ni =>
        obtain ⟨m, hm⟩ := ih h
        exact ⟨m, by simp [resolveNodeNames, hga, hm]⟩

theorem mem_insertSortedBy {α : Type} {le : α → α → Bool} {a b : α}
    {l : List α} : a ∈ insertSortedBy le b l ↔ a = b ∨ a ∈ l := by
  induction l with
  | nil => simp [insertSortedBy]
  | cons c l ih =>
    by_cases hle : le b c
    · simp [insertSortedBy, hle]
    · simp [insertSortedBy, hle, ih]
      tauto

theorem mem_insertionSortBy {α : Type} {le : α → α → Bool} {a : α}
    {l : List α} : a ∈ insertionSortBy le l ↔ a ∈ l := by
  induction l with
  | nil => simp [insertionSortBy]
  | cons b l ih =>
    simp [insertionSortBy, mem_insertSortedBy, ih]

theorem mem_sortedCountsByName {α : Type} [DecidableEq α]
    {name : α → String} {l : List α} {a : α} (h : a ∈ l) :
    (a, l.count a) ∈ sortedCountsByName name l := by
  rw [sortedCountsByName, mem_insertionSortBy]
  exact List.mem_map_of_mem _ (List.mem_dedup.mpr h)

theorem keptSections_append (l1 l2 : List (Option String)) :
    keptSections (l1 ++ l2) = keptSections l1 ++ keptSections l2 := by
  simp [keptSections, List.filterMap_append, List.filter_append]

/-! Theorems for the claims. -/

/-- C1: `_satisfy_shard_op_state(current, target)` is true iff target is
MAY_DISAPPEAR and current is one of MAY_DISAPPEAR, DRAINED, PROVISIONING,
MIGRATING_DATA, or target is DRAINED and current is DRAINED; every other
combination yields false. -/
theorem satisfy_shard_op_state_characterization
    (cur tgt : ShardOperationalState) :
    satisfy_shard_op_state cur tgt = true ↔
      ((tgt = ShardOperationalState.MAY_DISAPPEAR
          ∧ (cur = ShardOperationalState.MAY_DISAPPEAR
              ∨ cur = ShardOperationalState.DRAINED
              ∨ cur = ShardOperationalState.PROVISIONING
              ∨ cur = ShardOperationalState.MIGRATING_DATA))
        ∨ (tgt = ShardOperationalState.DRAINED
            ∧ cur = ShardOperationalState.DRAINED)) := by
  cases cur <;> cases tgt <;> decide

/-- C2: the severity classifiers are total: every overall-progress or
maintenance-status value dispatched through `_color` yields exactly one
color, from the explicit branches (red, green, yellow) or the white
default, and every priority value yields exactly one of magenta, red,
blue or the white default; no structurally valid input can raise. -/
theorem color_classifiers_total :
    (∀ arg : ColorArg,
      color arg = "red" ∨ color arg = "green"
        ∨ color arg = "yellow" ∨ color arg = "white")
    ∧ (∀ p : MaintenancePriority,
      color_priority p = "magenta" ∨ color_priority p = "red"
        ∨ color_priority p = "blue" ∨ color_priority p = "white") := by
  constructor
  · intro arg
    rcases arg with p | s
    · cases p <;> simp [color, color_maintenance_overall_status]
    · cases s <;> simp [color, color_maintenance_status]
  · intro p
    cases p <;> simp [color_priority]

/-- C6: `_filter_maintenance_views` with every criterion absent returns
the input sequence unchanged — same records, same order, internal
records included. -/
theorem filter_no_criteria_identity
    (maintenance_views : List MaintenanceView) (cv : ClusterView) :
    filter_maintenance_views maintenance_views cv none none none none
        none none none none none
      = Except.ok maintenance_views := by
  simp [filter_maintenance_views, filterStages, optFilter]

/-- C7: with `include_internal_maintenances` explicitly false, no
internal record survives `_filter_maintenance_views`; with it unset
(`None`) or true, no internal-visibility filtering is applied — the
result is the same as with the criterion unset. -/
theorem filter_internal_visibility :
    (∀ (maintenance_views : List MaintenanceView) (cv : ClusterView)
      (ids users : Option (List String))
      (node_indexes : Option (List Nat))
      (node_names : Option (List String))
      (blocked completed in_progress : Option Bool)
      (priority : Option MaintenancePriority)
      (out : List MaintenanceView),
      filter_maintenance_views maintenance_views cv ids users node_indexes
          node_names blocked completed in_progress priority (some false)
        = Except.ok out →
      out.all (fun mv => !mv.is_internal) = true)
    ∧ (∀ (maintenance_views : List MaintenanceView) (cv : ClusterView)
      (ids users : Option (List String))
      (node_indexes : Option (List Nat))
      (node_names : Option (List String))
      (blocked completed in_progress : Option Bool)
      (priority : Option MaintenancePriority),
      filter_maintenance_views maintenance_views cv ids users node_indexes
          node_names blocked completed in_progress priority (some true)
        = filter_maintenance_views maintenance_views cv ids users
          node_indexes node_names blocked completed in_progress priority
          none) := by
  constructor
  · intro mvs cv ids users node_indexes node_names blocked completed
      in_progress priority out h
    rw [List.all_eq_true]
    intro mv hmv
    have hout : mv ∈ filterStages mvs ids users node_indexes
        (match node_names with
          | some names =>
            match resolveNodeNames cv names with
            | Except.ok nis => some nis
            | Except.error _ => none
          | none => none)
        blocked completed in_progress priority (some false) := by
      cases node_names with
      | none =>
        simp only [filter_maintenance_views, Except.ok.injEq] at h
        rw [← h] at hmv
        exact hmv
      | some names =>
        cases hres : resolveNodeNames cv names with
        | ok nis =>
          simp only [filter_maintenance_views, hres, Except.ok.injEq] at h
          rw [← h] at hmv
          simp only [hres]
          exact hmv
        | error e =>
          simp only [filter_maintenance_views, hres] at h
          cases h
    have hfirst := mem_filterStages_first hout
    rw [if_pos rfl] at hfirst
    have hint := List.of_mem_filter hfirst
    exact hint
  · intro mvs cv ids users node_indexes node_names blocked completed
      in_progress priority
    cases node_names with
    | none => simp [filter_maintenance_views, filterStages_incl_true]
    | some names =>
      cases hres : resolveNodeNames cv names with
      | ok nis =>
        simp [filter_maintenance_views, hres, filterStages_incl_true]
      | error e =>
        simp [filter_maintenance_views, hres]

/-- Witness for C7 at concrete inputs: filtering the two-record list
with `include_internal_maintenances=False` keeps only the non-internal
record, and `True` behaves exactly like leaving the criterion unset. -/
theorem filter_internal_visibility_witness :
    ([mvBlockedSample].all (fun mv => !mv.is_internal) = true)
    ∧ (filter_maintenance_views [mvBlockedSample, mvInternalSample]
        cvSample none none none none none none none none (some true)
      = filter_maintenance_views [mvBlockedSample, mvInternalSample]
        cvSample none none none none none none none none none) :=
  ⟨filter_internal_visibility.1 [mvBlockedSample, mvInternalSample]
      cvSample none none none none none none none none [mvBlockedSample]
      rfl,
    filter_internal_visibility.2 [mvBlockedSample, mvInternalSample]
      cvSample none none none none none none none none⟩

/-- C8: when `node_names` is present and some name does not resolve in
the cluster view, `_filter_maintenance_views` fails with
`NodeNotFoundError` — no filtered result is produced, whatever the other
criteria and records are. -/
theorem filter_node_names_unresolved
    (maintenance_views : List MaintenanceView) (cv : ClusterView)
    (ids users : Option (List String))
    (node_indexes : Option (List Nat))
    (names : List String)
    (blocked completed in_progress : Option Bool)
    (priority : Option MaintenancePriority)
    (include_internal_maintenances : Option Bool)
    (nm : String) (hmem : nm ∈ names)
    (hfail : cv.get_node_index nm = none) :
    isNodeNotFound (filter_maintenance_views maintenance_views cv ids
        users node_indexes (some names) blocked completed in_progress
        priority include_internal_maintenances) = true := by
  obtain ⟨m, hm⟩ := resolveNodeNames_err hmem hfail
  simp [filter_maintenance_views, hm, isNodeNotFound]

/-- Witness for C8: filtering with the unresolvable name "ghost" fails
with `NodeNotFoundError`. -/
theorem filter_node_names_unresolved_witness :
    isNodeNotFound (filter_maintenance_views [mvBlockedSample] cvSample
        none none none (some ["ghost"]) none none none none none)
      = true :=
  filter_node_names_unresolved [mvBlockedSample] cvSample none none none
    ["ghost"] none none none none none "ghost" (by simp) (by decide)

/-- C9: whenever the filtered set is empty, `_select_and_render`
produces exactly the red "No maintenances matching given criteria"
message — the renderer (and hence any table, even a header-only one) is
never invoked. -/
theorem select_and_render_no_match
    (ext : ExtLib) (cv : ClusterView)
    (ids users : Option (List String))
    (node_indexes : Option (List Nat))
    (node_names : Option (List String))
    (blocked completed in_progress : Option Bool)
    (priority : Option MaintenancePriority)
    (rendering_mode : RenderingMode)
    (h : filter_maintenance_views cv.get_all_maintenance_views cv ids
        users node_indexes node_names blocked completed in_progress
        priority none = Except.ok []) :
    select_and_render ext cv ids users node_indexes node_names blocked
        completed in_progress priority rendering_mode
      = Except.ok
        (ext.colored "No maintenances matching given criteria" "red") := by
  simp [select_and_render, h]

/-- Witness for C9: an `ids` criterion matching nothing yields the
message. -/
theorem select_and_render_no_match_witness :
    select_and_render extSample cvSample (some []) none none none none
        none none none RenderingMode.COMPACT
      = Except.ok
        (extSample.colored "No maintenances matching given criteria"
          "red") :=
  select_and_render_no_match extSample cvSample (some []) none none none
    none none none none RenderingMode.COMPACT rfl

/-- C3 as stated is false on the code: for a node whose shard-state list
is non-empty but where no shard state carries a maintenance record —
i.e. no shard of the node has a "last updated" timestamp — the
aggregated view does not show "NEVER"; Python's `min()` over the empty
timestamp sequence raises `ValueError`. -/
theorem aggregated_last_updated_never_counterexample :
    aggregatedLastUpdatedCell extSample nvNoMaintenanceSample
      = Except.error (PyErr.valueError "min() arg is an empty sequence") :=
  rfl

/-- C3 amended: in the aggregated view the LAST UPDATED cell equals the
minimum (earliest) of the last-updated timestamps among the node's shard
states that carry a maintenance record, rendered as the absolute time
plus the human-relative suffix; the sentinel "NEVER" is shown exactly
when the node's shard-state list is empty; when shard states exist but
none carries a maintenance record the code raises `ValueError` instead
of showing "NEVER". -/
theorem aggregated_last_updated_cell_spec (ext : ExtLib) :
    (∀ nv : NodeView, nv.shard_states = [] →
      aggregatedLastUpdatedCell ext nv = Except.ok "NEVER")
    ∧ (∀ (nv : NodeView) (ts : List Nat) (t : Nat),
      ts = (nv.shard_states.filterMap NodeShardState.maintenance).map
        ShardMaintenanceProgressT.last_updated_at →
      ts.min? = some t →
      aggregatedLastUpdatedCell ext nv
          = Except.ok (toString t ++ " (" ++ ext.naturaltime t ++ ")")
        ∧ t ∈ ts ∧ ∀ u ∈ ts, t ≤ u)
    ∧ (∀ nv : NodeView, nv.shard_states ≠ [] →
      nv.shard_states.filterMap NodeShardState.maintenance = [] →
      aggregatedLastUpdatedCell ext nv
        = Except.error (PyErr.valueError "min() arg is an empty sequence")) := by
  refine ⟨?_, ?_, ?_⟩
  · intro nv h
    simp [aggregatedLastUpdatedCell, h]
  · intro nv ts t hts hmin
    have hne : nv.shard_states ≠ [] := by
      intro h0
      rw [h0] at hts
      simp at hts
      rw [hts] at hmin
      simp at hmin
    refine ⟨?_, (List.min?_eq_some_iff'.mp hmin).1,
      (List.min?_eq_some_iff'.mp hmin).2⟩
    rw [aggregatedLastUpdatedCell, if_pos hne, ← hts, hmin]
  · intro nv hne hempty
    simp [aggregatedLastUpdatedCell, hne, hempty]

/-- Witness for C3 (amended) at concrete node views: the empty node
shows "NEVER", the node whose only shard state was last updated at time
7 shows that time with the relative suffix, and the node whose shard
states carry no maintenance record raises. -/
theorem aggregated_last_updated_cell_spec_witness :
    aggregatedLastUpdatedCell extSample nvEmptySample = Except.ok "NEVER"
    ∧ aggregatedLastUpdatedCell extSample nvSample
      = Except.ok "7 (7 seconds ago)"
    ∧ aggregatedLastUpdatedCell extSample nvNoMaintenanceSample
      = Except.error (PyErr.valueError "min() arg is an empty sequence") := by
  have T := aggregated_last_updated_cell_spec extSample
  refine ⟨T.1 nvEmptySample rfl, ?_, T.2.2 nvNoMaintenanceSample (by decide) rfl⟩
  have h2 := (T.2.1 nvSample [7] 7 rfl rfl).1
  rw [h2]
  rfl

/-- C5: in a compact row, the shard-progress cell is the dash
placeholder when the record does not affect shards, and otherwise the
`TARGET(done/total)` chip colored red (danger) when the record is
blocked, yellow (warn) when not all shards are done, green (ok) when
all are done; the sequencer-progress cell is analogous but its color is
the green/yellow expression only — never red — and is a dash when the
record does not affect sequencers. -/
theorem compact_progress_chips :
    (∀ (ext : ExtLib) (cv : ClusterView) (mv : MaintenanceView),
      mv.affects_shards = false →
      (mv_to_row ext mv cv).shard_progress = "-")
    ∧ (∀ (ext : ExtLib) (cv : ClusterView) (mv : MaintenanceView),
      mv.affects_shards = true →
      (mv_to_row ext mv cv).shard_progress
        = ext.colored
          (targetName mv.shard_target_state ++ "("
            ++ toString mv.num_shards_done ++ "/"
            ++ toString mv.num_shards_total ++ ")")
          (if mv.is_blocked then "red"
            else if !mv.are_all_shards_done then "yellow" else "green"))
    ∧ (∀ (ext : ExtLib) (cv : ClusterView) (mv : MaintenanceView),
      mv.affects_sequencers = false →
      (mv_to_row ext mv cv).sequencer_progress = "-")
    ∧ (∀ (ext : ExtLib) (cv : ClusterView) (mv : MaintenanceView),
      mv.affects_sequencers = true →
      (mv_to_row ext mv cv).sequencer_progress
        = ext.colored
          (seqTargetName mv.sequencer_target_state ++ "("
            ++ toString mv.num_sequencers_done ++ "/"
            ++ toString mv.num_sequencers_total ++ ")")
          (if mv.are_all_sequencers_done then "green" else "yellow")
      ∧ (if mv.are_all_sequencers_done then "green" else "yellow") ≠ "red") := by
  refine ⟨?_, ?_, ?_, ?_⟩
  · intro ext cv mv h
    simp [mv_to_row, h]
  · intro ext cv mv h
    simp only [mv_to_row, h, if_true]
  · intro ext cv mv h
    simp [mv_to_row, h]
  · intro ext cv mv h
    refine ⟨by simp only [mv_to_row, h, if_true], ?_⟩
    cases hd : mv.are_all_sequencers_done <;> simp

/-- Witness for C5 at concrete records: the record affecting neither
shards nor sequencers shows dashes; the blocked record shows a red
DRAINED(0/1) shard chip and a yellow DISABLED(0/1) sequencer chip. -/
theorem compact_progress_chips_witness :
    (mv_to_row extSample mvPlainSample cvSample).shard_progress = "-"
    ∧ (mv_to_row extSample mvBlockedSample cvSample).shard_progress
      = extSample.colored "DRAINED(0/1)" "red"
    ∧ (mv_to_row extSample mvPlainSample cvSample).sequencer_progress = "-"
    ∧ (mv_to_row extSample mvBlockedSample cvSample).sequencer_progress
      = extSample.colored "DISABLED(0/1)" "yellow" := by
  refine ⟨compact_progress_chips.1 extSample cvSample mvPlainSample rfl,
    ?_, compact_progress_chips.2.2.1 extSample cvSample mvPlainSample rfl,
    ?_⟩
  · rw [compact_progress_chips.2.1 extSample cvSample mvBlockedSample rfl]
    rfl
  · rw [(compact_progress_chips.2.2.2 extSample cvSample mvBlockedSample
      rfl).1]
    rfl

theorem render_expanded_singleton (ext : ExtLib) (mv : MaintenanceView)
    (cv : ClusterView) (es ss : Bool) :
    render_expanded ext [mv] cv es ss = oneMaintenance ext mv cv es ss := by
  cases h : oneMaintenance ext mv cv es ss with
  | ok s =>
    simp [render_expanded, List.mapM, List.mapM.loop, h,
      String.intercalate, String.intercalate.go]
  | error e =>
    simp [render_expanded, List.mapM, List.mapM.loop, h]

/-- C4: for a record with overall status BLOCKED_UNTIL_SAFE and a
populated impact result, the ExpandedWithSafetyChecks sections
(`show_safety_check_results=True`) end with the non-empty safety-impact
block, while the plain Expanded sections
(`show_safety_check_results=False`) are exactly the same list with that
final block removed — the block is included in the one rendering and
omitted from the other; both modes are what
`_render_expanded_with_safety_checks` and plain `_render` in EXPANDED
mode produce. -/
theorem expanded_safety_impact_block
    (ext : ExtLib) (mv : MaintenanceView) (cv : ClusterView)
    (r : ImpactResult)
    (h1 : mv.overall_status = MaintenanceProgress.BLOCKED_UNTIL_SAFE)
    (h2 : mv.last_check_impact_result = some r) :
    impactSection ext mv true
      = "Safety Check Impact:\n\n"
        ++ ext.check_impact_string (some r) (flattenedShards mv)
          mv.shard_target_state
    ∧ impactSection ext mv false = ""
    ∧ (∀ secs, oneRawSections ext mv cv false true = Except.ok secs →
      (keptSections secs).getLast? = some (impactSection ext mv true))
    ∧ (∀ secs secs',
      oneRawSections ext mv cv false true = Except.ok secs →
      oneRawSections ext mv cv false false = Except.ok secs' →
      keptSections secs' = (keptSections secs).dropLast)
    ∧ render_expanded_with_safety_checks ext [mv] cv
      = oneMaintenance ext mv cv false true
    ∧ render ext [mv] cv RenderingMode.EXPANDED
      = oneMaintenance ext mv cv false false := by
  have hImpTrue : impactSection ext mv true
      = "Safety Check Impact:\n\n"
        ++ ext.check_impact_string (some r) (flattenedShards mv)
          mv.shard_target_state := by
    simp [impactSection, h1, h2]
  have hImpFalse : impactSection ext mv false = "" := by
    simp [impactSection]
  have hNe : impactSection ext mv true ≠ "" := by
    rw [hImpTrue]
    intro hcon
    have hlen := congrArg String.length hcon
    rw [String.length_append] at hlen
    have hlenPre : ("Safety Check Impact:\n\n").length = 22 := rfl
    have hlenNil : ("" : String).length = 0 := rfl
    rw [hlenPre, hlenNil] at hlen
    omega
  refine ⟨hImpTrue, hImpFalse, ?_, ?_,
    render_expanded_singleton ext mv cv false true,
    render_expanded_singleton ext mv cv false false⟩
  · intro secs hsecs
    cases hsh : shardsSection ext mv cv false with
    | error e =>
      rw [oneRawSections.eq_def, hsh] at hsecs
      cases hsecs
    | ok sh =>
      rw [oneRawSections.eq_def, hsh] at hsecs
      have hs : [some (overview ext mv cv), sh, sequencersSection ext mv cv,
          some (impactSection ext mv true)] = secs := by
        cases hsecs
        rfl
      rw [← hs,
        show [some (overview ext mv cv), sh, sequencersSection ext mv cv,
            some (impactSection ext mv true)]
          = [some (overview ext mv cv), sh,
            sequencersSection ext mv cv] ++ [some (impactSection ext mv true)]
          from rfl,
        keptSections_append,
        show keptSections [some (impactSection ext mv true)]
          = [impactSection ext mv true] from by simp [keptSections, hNe]]
      exact List.getLast?_concat _
  · intro secs secs' hsecs hsecs'
    cases hsh : shardsSection ext mv cv false with
    | error e =>
      rw [oneRawSections.eq_def, hsh] at hsecs
      cases hsecs
    | ok sh =>
      rw [oneRawSections.eq_def, hsh] at hsecs hsecs'
      have hs : [some (overview ext mv cv), sh, sequencersSection ext mv cv,
          some (impactSection ext mv true)] = secs := by
        cases hsecs
        rfl
      have hs' : [some (overview ext mv cv), sh, sequencersSection ext mv cv,
          some (impactSection ext mv false)] = secs' := by
        cases hsecs'
        rfl
      rw [← hs, ← hs',
        show [some (overview ext mv cv), sh, sequencersSection ext mv cv,
            some (impactSection ext mv true)]
          = [some (overview ext mv cv), sh,
            sequencersSection ext mv cv] ++ [some (impactSection ext mv true)]
          from rfl,
        show [some (overview ext mv cv), sh, sequencersSection ext mv cv,
            some (impactSection ext mv false)]
          = [some (overview ext mv cv), sh,
            sequencersSection ext mv cv] ++ [some (impactSection ext mv false)]
          from rfl,
        keptSections_append, keptSections_append,
        show keptSections [some (impactSection ext mv true)]
          = [impactSection ext mv true] from by simp [keptSections, hNe],
        show keptSections [some (impactSection ext mv false)] = []
          from by simp [keptSections, hImpFalse],
        List.dropLast_concat, List.append_nil]

/-- Witness for C4 at the concrete blocked record: the safety-check
sections end with the impact block and the plain expanded sections are
those sections without it. -/
theorem expanded_safety_impact_block_witness :
    (keptSections
        (okOr (oneRawSections extSample mvBlockedSample cvSample false true)
          [])).getLast?
      = some (impactSection extSample mvBlockedSample true)
    ∧ keptSections
        (okOr (oneRawSections extSample mvBlockedSample cvSample false false)
          [])
      = (keptSections
          (okOr (oneRawSections extSample mvBlockedSample cvSample false true)
            [])).dropLast := by
  have T := expanded_safety_impact_block extSample mvBlockedSample cvSample
    ⟨["REBUILDING_STALL"]⟩ rfl rfl
  exact ⟨T.2.2.1 _ rfl, T.2.2.2.1 _ _ rfl rfl⟩

/-- C10: the aggregated (per-node) and expanded (per-shard) shard
renderings color through the identical `_color_shard_op_state(current,
target)` value: for every shard of a node, the grouped chip for that
shard's current operational state in the aggregated CURRENT STATE cell
carries exactly the color that the per-shard row's CURRENT STATE cell
carries for the same (current, target) pair. -/
theorem aggregated_expanded_color_consistency
    (ext : ExtLib) (mv : MaintenanceView) (ni : Nat) (shard : ShardID)
    (h : shard ∈ mv.get_shards_by_node_index ni) :
    ext.colored
        ((get_shard_operational_state mv shard).name ++ "("
          ++ toString (((mv.get_shards_by_node_index ni).map
              (fun s => get_shard_operational_state mv s)).count
            (get_shard_operational_state mv shard)) ++ ")")
        (color_shard_op_state_opt (get_shard_operational_state mv shard)
          mv.shard_target_state)
      ∈ aggregatedCurrentStateChunks ext mv ni
    ∧ (shardsTableRow ext mv shard)[1]?
      = some (ext.colored (get_shard_operational_state mv shard).name
          (color_shard_op_state_opt (get_shard_operational_state mv shard)
            mv.shard_target_state)) := by
  constructor
  · have hmem : get_shard_operational_state mv shard
        ∈ (mv.get_shards_by_node_index ni).map
          (fun s => get_shard_operational_state mv s) :=
      List.mem_map_of_mem _ h
    exact List.mem_map_of_mem _ (mem_sortedCountsByName hmem)
  · rfl

/-- Witness for C10: the sample blocked maintenance's only shard on node
1 is MIGRATING_DATA towards DRAINED; the aggregated chip
MIGRATING_DATA(1) and the per-shard row cell carry the same color. -/
theorem aggregated_expanded_color_consistency_witness :
    extSample.colored "MIGRATING_DATA(1)"
        (color_shard_op_state_opt ShardOperationalState.MIGRATING_DATA
          (some ShardOperationalState.DRAINED))
      ∈ aggregatedCurrentStateChunks extSample mvBlockedSample 1
    ∧ (shardsTableRow extSample mvBlockedSample ⟨1, 0⟩)[1]?
      = some (extSample.colored "MIGRATING_DATA"
          (color_shard_op_state_opt ShardOperationalState.MIGRATING_DATA
            (some ShardOperationalState.DRAINED))) :=
  aggregated_expanded_color_consistency extSample mvBlockedSample 1
    ⟨1, 0⟩ (by decide)
